import Mathlib

/-!
Shallow embedding of src/lib/index.js of tarsiusid/apollo-upload-client
(the `createUploadLink` terminating Apollo link), together with theorems
checking the specification claims against it.

Conventions of the embedding:
* JavaScript runtime values that can occur in a request body are modelled
  by `JSValue` (numbers as `Int`, since every value used on these paths is
  integral); `typeof v === number` is `JSValue.isNumber` and JS truthiness
  is `JSValue.truthy`.
* The `variables` slot of a body is a `VarsValue` so that absent
  (undefined), `null` and object-valued variables are distinguished, as
  `Object.keys` throws a `TypeError` on the first two.
* `FormData` is a list of named parts; HTTP headers are an association
  list.
* `JSON.stringify` of a plain record and `JSON.parse` of its output are
  mutually inverse in the JS runtime, so a serialized JSON wire body is
  carried as the structured value it denotes (`WireBody.json`); a
  `FormData` wire body coerces to the string text
  "[object FormData]" under `JSON.parse`, which is not valid JSON and
  throws a `SyntaxError` before anything else happens.
-/

namespace ApolloUpload

/-- Binary file handle as the multipart encoder sees it: a declared file
name (read at src/lib/index.js:145 as `file.name`) and opaque content. -/
structure UploadFile where
  name : String
  content : List Nat
deriving Repr, DecidableEq

/-- JavaScript runtime values appearing in request bodies on the paths the
transport exercises: undefined, null, numbers, strings and file objects. -/
inductive JSValue where
  | undefined
  | null
  | num (n : Int)
  | str (s : String)
  | file (f : UploadFile)
deriving Repr, DecidableEq

/-- JS truthiness of a `JSValue`: undefined, null, 0 and the empty string
are falsy; every other value on these paths is truthy. -/
def JSValue.truthy : JSValue → Bool
  | .undefined => false
  | .null => false
  | .num n => n != 0
  | .str s => s != ""
  | .file _ => true

/-- The test `typeof v === number` of src/lib/index.js:161. -/
def JSValue.isNumber : JSValue → Bool
  | .num _ => true
  | _ => false

/-- JS string coercion `String(v)`, as performed when a value is handed to
`String.prototype.replace` as replacement or concatenated into a string. -/
def JSValue.toJSString : JSValue → String
  | .undefined => "undefined"
  | .null => "null"
  | .num n => toString n
  | .str s => s
  | .file _ => "[object Object]"

/-- The `variables` slot of a body: absent/undefined, null, or an object
whose own enumerable keys appear in insertion order. `JSON.parse` never
produces duplicate keys, so the association list has distinct keys on
every path the transport exercises. -/
inductive VarsValue where
  | undefined
  | null
  | obj (entries : List (String × JSValue))
deriving Repr, DecidableEq

/-- A GraphQL request body as produced by `selectHttpOptionsAndBody` and
re-read by `JSON.parse` at src/lib/index.js:155. The `operation` field is
carried explicitly because line 173 reads `body.operation`; on bodies
built by the collaborators it is absent, i.e. `undefined`. -/
structure ParsedBody where
  operationName : JSValue := .undefined
  operation : JSValue := .undefined
  query : JSValue := .undefined
  vars : VarsValue := .undefined
deriving Repr, DecidableEq

/-- A JavaScript exception: a name (such as TypeError), a message, and the
optional `result` property used by the catch handler. -/
structure ErrorResult where
  data : JSValue := .undefined
  errors : JSValue := .undefined
deriving Repr, DecidableEq

/-- A JavaScript error value as the transport inspects it: its `name`, its
message text, and its optional `result` property (set by the external
response parser on failures that carry a GraphQL payload). -/
structure JSError where
  name : String
  message : String := ""
  result : Option ErrorResult := none
deriving Repr, DecidableEq

/-- The `TypeError` raised by `Object.keys(undefined)` and
`Object.keys(null)` at src/lib/index.js:158. -/
def errKeysOfNull : JSError :=
  { name := "TypeError", message := "Cannot convert undefined or null to object" }

/-- The `TypeError` raised when `body.query` is truthy but not a string,
so that `.split` at src/lib/index.js:157 is not a function. -/
def errSplitNotFn : JSError :=
  { name := "TypeError", message := "body.query.split is not a function" }

/-- The `SyntaxError` raised by `JSON.parse` at src/lib/index.js:155 when
`options.body` is a `FormData` instance: the argument is coerced to the
string text "[object FormData]", which is not valid JSON. -/
def errParseFormData : JSError :=
  { name := "SyntaxError", message := "Unexpected token o in JSON at position 1" }

/-- The single-quote character, used by the rewriter when quoting a value
as a string literal (src/lib/index.js:165). -/
def squote : String := (Char.ofNat 39).toString

/-- Splitting a character list at every occurrence of a separator, the
semantics of `String.prototype.split` with a one-character separator:
the empty string splits to one empty piece. -/
def splitOnChar (sep : Char) : List Char → List (List Char)
  | [] => [[]]
  | c :: cs =>
    match splitOnChar sep cs with
    | [] => if c = sep then [[], []] else [[c]]
    | r :: rs => if c = sep then [] :: r :: rs else (c :: r) :: rs

/-- Joining pieces with a separator character, the semantics of
`Array.prototype.join` with a one-character separator. -/
def joinWithChar (sep : Char) : List (List Char) → List Char
  | [] => []
  | [x] => x
  | x :: xs => x ++ sep :: joinWithChar sep xs

/-- Case-insensitive prefix test on character lists, ASCII case folding as
the regular-expression flag i performs on the letters occurring here. -/
def startsWithCI : List Char → List Char → Bool
  | _, [] => true
  | [], _ :: _ => false
  | c :: cs, p :: ps => (c.toLower == p.toLower) && startsWithCI cs ps

/-- Replacing the first case-insensitive occurrence of `pat` in a
character list by `repl`; the list is unchanged when no occurrence
exists. This is `String.prototype.replace` with a non-global
case-insensitive regular expression whose pattern is the literal `pat`
(the variable keys occurring here contain no regex metacharacters and the
replacement strings contain no dollar patterns). -/
def replaceFirstCIAux (repl pat : List Char) : List Char → List Char
  | [] => []
  | c :: cs =>
    if startsWithCI (c :: cs) pat then repl ++ (c :: cs).drop pat.length
    else c :: replaceFirstCIAux repl pat cs

/-- String version of `replaceFirstCIAux`. -/
def replaceFirstCI (s pat repl : String) : String :=
  String.mk (replaceFirstCIAux repl.data pat.data s.data)

/-- Removing every newline character: `replace(/\n/g, ...)` with the empty
replacement, src/lib/index.js:170. -/
def stripNewlines (s : String) : String :=
  String.mk (s.data.filter (fun c => c != Char.ofNat 10))

/-- The opening brace character. -/
def braceOpen : Char := Char.ofNat 123

/-- The closing brace character. -/
def braceClose : Char := Char.ofNat 125

/-- Line 157 of src/lib/index.js: everything after the first opening brace
and before the last closing brace of the query string, via
`split(...).splice(1).join(...)` and `split(...).slice(0,-1).join(...)`. -/
def innerSelection (qs : String) : String :=
  String.mk (joinWithChar braceClose
    (((splitOnChar braceClose
        (joinWithChar braceOpen ((splitOnChar braceOpen qs.data).drop 1)))).dropLast))

/-- Property read `body.variables[key]` on the variables object. -/
def varGet (v : VarsValue) (k : String) : JSValue :=
  match v with
  | .obj entries => ((entries.find? (fun kv => kv.1 == k)).map Prod.snd).getD .undefined
  | _ => .undefined

/-- The call `Object.keys(body.variables)` at src/lib/index.js:158: the own
enumerable keys of an object, a `TypeError` on undefined or null. -/
def objectKeys : VarsValue → Except JSError (List String)
  | .obj entries => .ok (entries.map Prod.fst)
  | _ => .error errKeysOfNull

/-- The literal form computed into the local `val` at
src/lib/index.js:160-166: the raw value when the key lowercases to id or
the value is numeric, otherwise the value wrapped in single quotes. The
source computes this value for every key but never uses it: line 168
passes the raw `body.variables[keys[i]]` to `replace` instead of `val`. -/
def literalForm (key : String) (v : JSValue) : String :=
  if String.mk (key.data.map Char.toLower) == "id" || v.isNumber then v.toJSString
  else squote ++ v.toJSString ++ squote

/-- Lines 155-178 of src/lib/index.js after the `JSON.parse`: when
`body.query` is truthy, isolate the selection set, substitute the first
case-insensitive occurrence of each dollar-prefixed variable key by the
raw variable value (the computed quoted literal `val` is dead), strip
newlines, re-wrap, and rebuild the body with `operationName` taken from
`body.operation` and `variables` nulled. Returns the resulting body and
whether the rewrite branch ran; raises the JS exceptions the source
raises. -/
def rewriteStep (b : ParsedBody) : Except JSError (ParsedBody × Bool) :=
  if b.query.truthy then
    match b.query with
    | .str qs => do
      let keys ← objectKeys b.vars
      let raw0 := innerSelection qs
      let raw1 := keys.foldl
        (fun rq k => replaceFirstCI rq ("$" ++ k) (varGet b.vars k).toJSString) raw0
      let raw2 := " query \x7b " ++ stripNewlines raw1 ++ " \x7d "
      .ok ({ operationName := b.operation, operation := .undefined,
             query := .str raw2, vars := .null }, true)
    | _ => .error errSplitNotFn
  else .ok (b, false)

/-- One escaped character of a JSON string literal, following the escaping
rules of `JSON.stringify`. -/
def jsonEscapeChar (c : Char) : String :=
  if c = Char.ofNat 34 then "\\\""
  else if c = Char.ofNat 92 then "\\\\"
  else if c = Char.ofNat 8 then "\\b"
  else if c = Char.ofNat 9 then "\\t"
  else if c = Char.ofNat 10 then "\\n"
  else if c = Char.ofNat 12 then "\\f"
  else if c = Char.ofNat 13 then "\\r"
  else if c.toNat < 32 then
    "\\u00" ++ (Nat.toDigits 16 (c.toNat / 16)).asString
      ++ (Nat.toDigits 16 (c.toNat % 16)).asString
  else c.toString

/-- A JSON string literal for `s`, as `JSON.stringify` renders it. -/
def jsonQuote (s : String) : String :=
  "\"" ++ String.join (s.data.map jsonEscapeChar) ++ "\""

/-- Joining rendered JSON items with a separator. -/
def sepJoin (sep : String) : List String → String
  | [] => ""
  | [x] => x
  | x :: xs => x ++ sep ++ sepJoin sep xs

/-- JSON text of one `JSValue`, `none` for undefined (which
`JSON.stringify` omits from objects). A file object has no serializable
own properties here; extraction removes every file before serialization,
so the file case is never reached on the paths the transport takes. -/
def jsValueJson : JSValue → Option String
  | .undefined => none
  | .null => some "null"
  | .num n => some (toString n)
  | .str s => some (jsonQuote s)
  | .file _ => some "\x7b\x7d"

/-- JSON text of the `variables` slot, `none` when it is absent. -/
def varsValueJson : VarsValue → Option String
  | .undefined => none
  | .null => some "null"
  | .obj entries =>
    some ("\x7b" ++ sepJoin ","
      (entries.filterMap fun kv => (jsValueJson kv.2).map fun j => jsonQuote kv.1 ++ ":" ++ j)
      ++ "\x7d")

/-- The external `serializeFetchParameter(body, ...)` collaborator
(src/lib/index.js:125): `JSON.stringify` of the body, with fields holding
undefined omitted. Field order follows the record order of the embedding;
no claim depends on it. -/
def serializeFetchParameter (b : ParsedBody) : String :=
  let fields := [("operationName", jsValueJson b.operationName),
                 ("operation", jsValueJson b.operation),
                 ("query", jsValueJson b.query),
                 ("variables", varsValueJson b.vars)]
  "\x7b" ++ sepJoin "," (fields.filterMap fun kv => kv.2.map fun j => jsonQuote kv.1 ++ ":" ++ j)
    ++ "\x7d"

/-- One file extracted from the body: its dot-addressed path inside the
body and its file handle, the shape the external `extract-files`
collaborator returns (spec section 6). -/
structure ExtractedFile where
  path : String
  file : UploadFile
deriving Repr, DecidableEq

/-- The external `extractFiles(body)` collaborator (src/lib/index.js:124),
per its interface in spec section 6: file-like leaf values live among the
variables; each is returned with its path and replaced in the body by the
placeholder the extraction step leaves (null), in variable order. -/
def extractFilesFrom (b : ParsedBody) : List ExtractedFile × ParsedBody :=
  match b.vars with
  | .obj entries =>
    let files := entries.filterMap fun kv =>
      match kv.2 with
      | .file f => some (ExtractedFile.mk ("variables." ++ kv.1) f)
      | _ => none
    let cleaned := entries.map fun kv =>
      match kv.2 with
      | .file _ => (kv.1, JSValue.null)
      | v => (kv.1, v)
    (files, { b with vars := .obj cleaned })
  | _ => ([], b)

/-- One value held by a `FormData` field: string text or a file with the
file name passed alongside it. -/
inductive FormDataValue where
  | text (s : String)
  | fileVal (f : UploadFile) (filename : String)
deriving Repr, DecidableEq

/-- One appended `FormData` part: field name and value. -/
structure FormDataPart where
  name : String
  value : FormDataValue
deriving Repr, DecidableEq

/-- The wire body held in `options.body`: either the JSON text of a body
(carried as the structured value it denotes, see the file comment) or a
`FormData` container listing its appended parts. -/
inductive WireBody where
  | json (b : ParsedBody)
  | formData (parts : List FormDataPart)
deriving Repr, DecidableEq

/-- The `map`-building reduce of src/lib/index.js:138-141: starting from
an empty object, each file appends its stringified index mapped to the
one-element array of its path. -/
def buildMapObj (files : List ExtractedFile) : List (String × List String) :=
  files.enum.foldl (fun m p => m ++ [(toString p.1, [p.2.path])]) []

/-- Rendering of `JSON.stringify` on the accumulated map object: keys in
insertion order, each value a JSON array of JSON strings. -/
def mapObjJson (m : List (String × List String)) : String :=
  "\x7b" ++ sepJoin "," (m.map fun kv =>
    jsonQuote kv.1 ++ ":[" ++ sepJoin "," (kv.2.map jsonQuote) ++ "]") ++ "\x7d"

/-- Lines 133-146 of src/lib/index.js: build a `FormData`, append the
serialized payload under `operations`, append the JSON-encoded index map
under `map`, then append each file under its numeric index (coerced to a
string field name) together with its declared `file.name`. -/
def encodeMultipart (payload : String) (files : List ExtractedFile) : List FormDataPart :=
  let fd0 : List FormDataPart := []
  let fd1 := fd0 ++ [FormDataPart.mk "operations" (.text payload)]
  let fd2 := fd1 ++ [FormDataPart.mk "map" (.text (mapObjJson (buildMapObj files)))]
  files.enum.foldl (fun fd p => fd ++ [FormDataPart.mk (toString p.1) (.fileVal p.2.file p.2.file.name)]) fd2

/-- Removal of the explicit content-type header,
`delete options.headers[...]` at src/lib/index.js:129. -/
def deleteHeader (hs : List (String × String)) (k : String) : List (String × String) :=
  hs.filter (fun kv => kv.1 != k)

/-- The call `JSON.parse(options.body)` at src/lib/index.js:155: the JSON
text of a body parses back to that body; a `FormData` value coerces to
the string text "[object FormData]", which raises a `SyntaxError`. -/
def jsonParseWire : WireBody → Except JSError ParsedBody
  | .json b => .ok b
  | .formData _ => .error errParseFormData

/-- Pipeline stages of the request handler, in the order the source
executes them, used to express ordering claims as traces. -/
inductive PipelineEvent where
  | extractFilesEv
  | serializeEv
  | multipartEncodeEv
  | rewriteEv
  | fetchEv
deriving Repr, DecidableEq

/-- Terminal state of one subscription: either the network call was issued
with a final wire body, or a JS exception was raised before it. -/
inductive Outcome where
  | sent (wire : WireBody)
  | threw (e : JSError)
deriving Repr, DecidableEq

/-- Result of running the request handler and one subscription: the final
headers, the wire body built before subscription (lines 127-147), the
trace of pipeline stages in execution order, and the outcome. -/
structure LinkResult where
  headers : List (String × String)
  wire : WireBody
  trace : List PipelineEvent
  outcome : Outcome
deriving Repr, DecidableEq

/-- The subscription body, src/lib/index.js:155-180: parse `options.body`,
run the rewrite step, re-serialize the rewritten body into `options.body`
when the rewrite branch ran, then issue the fetch. Returns the stage
trace of this part and the outcome; a raised exception stops before the
fetch. -/
def subscribeRun (wire : WireBody) : List PipelineEvent × Outcome :=
  match jsonParseWire wire with
  | .error e => ([], .threw e)
  | .ok parsed =>
    match rewriteStep parsed with
    | .error e => ([], .threw e)
    | .ok (b2, applied) =>
      if applied then ([.rewriteEv, .fetchEv], .sent (.json b2))
      else ([.fetchEv], .sent wire)

/-- The request handler of src/lib/index.js:107-180 for one operation and
one subscription, in source order: extract files (124), serialize the
payload (125), build the multipart body when files exist (127-146) or use
the payload verbatim (147), then on subscription parse, rewrite and
fetch. -/
def runRequest (headers0 : List (String × String)) (body0 : ParsedBody) : LinkResult :=
  let ext := extractFilesFrom body0
  let files := ext.1
  let bodyX := ext.2
  let payload := serializeFetchParameter bodyX
  let prep :=
    if files.length != 0 then
      (deleteHeader headers0 "content-type",
       WireBody.formData (encodeMultipart payload files),
       [PipelineEvent.extractFilesEv, PipelineEvent.serializeEv, PipelineEvent.multipartEncodeEv])
    else
      (headers0, WireBody.json bodyX,
       [PipelineEvent.extractFilesEv, PipelineEvent.serializeEv])
  let sub := subscribeRun prep.2.1
  { headers := prep.1, wire := prep.2.1, trace := prep.2.2 ++ sub.1, outcome := sub.2 }

/-- Events the catch handler can emit on the observer
(src/lib/index.js:191-201). -/
inductive ObserverEvent where
  | nextResult (r : ErrorResult)
  | errorEv (e : JSError)
deriving Repr, DecidableEq

/-- The catch handler of src/lib/index.js:191-201: an abort error returns
with no event; otherwise, when the error carries a result whose `errors`
and `data` are both truthy, that result is emitted as a next event; the
error event always follows. -/
def catchHandler (e : JSError) : List ObserverEvent :=
  if e.name == "AbortError" then []
  else
    (match e.result with
     | some r => if r.errors.truthy && r.data.truthy then [ObserverEvent.nextResult r] else []
     | none => []) ++ [ObserverEvent.errorEv e]

/-- A raw HTTP response as handed to the success chain. -/
structure Response where
  status : Nat := 200
  bodyText : String := ""
deriving Repr, DecidableEq

/-- A parsed GraphQL result. The external response parser
(`parseAndCheckHttpResponse`, spec section 6) is modelled as pairing the
result with the response it came from, which is all the ordering claim
inspects. -/
structure GQLResult where
  raw : Response
deriving Repr, DecidableEq

/-- The external response-parsing collaborator applied to a response. -/
def parseAndCheckHttpResponse (r : Response) : GQLResult := GQLResult.mk r

/-- The slice of the operation context the transport mutates:
`operation.setContext(...)` at src/lib/index.js:183 stores the raw
response. -/
structure OperationContext where
  response : Option Response := none
deriving Repr, DecidableEq

/-- Steps of the success chain of src/lib/index.js:180-189, in order:
the context mutation, the hand-off to the response parser, the next
event, the completion. -/
inductive SuccessEvent where
  | setContextEv (r : Response)
  | parseEv (r : Response)
  | nextEv (res : GQLResult)
  | completeEv
deriving Repr, DecidableEq

/-- One step of the success chain together with the operation context as
it stands when the step runs, so that happens-before facts about the
context are expressible. -/
structure TracedStep where
  event : SuccessEvent
  ctxAtStep : OperationContext
deriving Repr, DecidableEq

/-- The promise chain of src/lib/index.js:180-189 on a successful
response: the first handler stores the response on the operation context
and passes the response on; the second hands it to the external parser;
the third emits the parsed result as the next event and completes.
Returns the final context and the ordered steps, each recording the
context at the moment it runs. -/
def runSuccessChain (ctx0 : OperationContext) (resp : Response) : OperationContext × List TracedStep :=
  let ctx1 : OperationContext := { ctx0 with response := some resp }
  let steps1 := [TracedStep.mk (.setContextEv resp) ctx1]
  let result := parseAndCheckHttpResponse resp
  let steps2 := steps1 ++ [TracedStep.mk (.parseEv resp) ctx1]
  let steps3 := steps2 ++ [TracedStep.mk (.nextEv result) ctx1, TracedStep.mk .completeEv ctx1]
  (ctx1, steps3)

/-- The pipeline order asserted by claim C2, as a check on a trace: the
first Query Rewriter stage runs strictly before the first Payload
Serializer stage. -/
def claimOrderC2 (tr : List PipelineEvent) : Bool :=
  match tr.findIdx? (fun e => e == PipelineEvent.rewriteEv),
        tr.findIdx? (fun e => e == PipelineEvent.serializeEv) with
  | some i, some j => decide (i < j)
  | _, _ => false

/-- Headers used by the concrete examples: an explicit content-type. -/
def exHeaders : List (String × String) := [("content-type", "application/json")]

/-- Failing input of claim C1: a string-valued variable bound to a
string-typed argument. -/
def c1Body : ParsedBody :=
  { query := .str "\x7b user(name: $name) \x7b x \x7d \x7d",
    vars := .obj [("name", .str "Bob")] }

/-- Concrete operation with a truthy query and no files, used against the
pipeline-order part of claim C2. -/
def c2Body : ParsedBody := { query := .str "\x7b x \x7d", vars := .obj [] }

/-- Concrete operation with an absent query, used against the
runs-unconditionally part of claim C2. -/
def c2NoRewriteBody : ParsedBody := { vars := .obj [] }

/-- The input body of claim C3. -/
def c3Body : ParsedBody :=
  { query := .str "\x7b user(id: $id) \x7b name \x7d \x7d",
    vars := .obj [("id", .num 5)] }

/-- The body claim C3 expects the rewriter to produce. -/
def c3Rewritten : ParsedBody :=
  { operationName := .undefined, operation := .undefined,
    query := .str " query \x7b  user(id: 5) \x7b name \x7d  \x7d ",
    vars := .null }

/-- Concrete upload operation with exactly one file-valued variable. -/
def c4Body : ParsedBody :=
  { operationName := .str "Up",
    query := .str "mutation ($file: Upload!) \x7b up(file: $file) \x7d",
    vars := .obj [("file", .file (UploadFile.mk "a.jpg" [1, 2]))] }

/-- Concrete non-abort failure carrying a structured partial result. -/
def c5Err : JSError :=
  { name := "ServerError", result := some { data := .str "d", errors := .str "e" } }

/-- Concrete body with a truthy query and no variables mapping. -/
def c10Body : ParsedBody := { query := .str "\x7b me \x7d" }

/-- Folding an append of one mapped element over a list extends the
accumulator by the mapped list; shape of the two multipart folds. -/
theorem foldl_append_map {α β : Type} (g : α → β) (l : List α) (acc : List β) :
    l.foldl (fun a x => a ++ [g x]) acc = acc ++ l.map g := by
  induction l generalizing acc with
  | nil => simp
  | cons x xs ih => simp [List.foldl_cons, ih]

/-- Trace shapes one subscription can add: nothing (an exception was
raised), a bare fetch, or a rewrite followed by the fetch. -/
theorem subscribeRun_trace_cases (w : WireBody) :
    (subscribeRun w).1 = []
    ∨ (subscribeRun w).1 = [PipelineEvent.fetchEv]
    ∨ (subscribeRun w).1 = [PipelineEvent.rewriteEv, PipelineEvent.fetchEv] := by
  rcases hw : jsonParseWire w with e | parsed
  · simp [subscribeRun, hw]
  · rcases hr : rewriteStep parsed with e | ⟨b2, applied⟩
    · simp [subscribeRun, hw, hr]
    · cases applied <;> simp [subscribeRun, hw, hr]

/-- C3: on the body with query of the user-by-id shape and variables
binding id to 5, the rewriter yields exactly the claimed query text, with
the numeric id unquoted, newlines stripped, and the selection set
re-wrapped between the query-brace head text and the brace-trailer text,
with variables nulled. -/
theorem claim3_rewrite_concrete :
    rewriteStep c3Body = .ok (c3Rewritten, true) := rfl

/-- C1 is what the source intended but not what it does: lines 160-166
compute the single-quoted literal into the local val, but line 168 passes
the raw variable value to replace, leaving val dead. At the failing input
(a non-id, string-valued key) the emitted query holds Bob bare, while the
computed literal is the quoted form, which differs. -/
theorem claim1_code_eval :
    rewriteStep c1Body
      = .ok ({ operationName := .undefined, operation := .undefined,
               query := .str " query \x7b  user(name: Bob) \x7b x \x7d  \x7d ",
               vars := .null }, true)
    ∧ literalForm "name" (JSValue.str "Bob") = squote ++ "Bob" ++ squote
    ∧ squote ++ "Bob" ++ squote ≠ "Bob" :=
  ⟨rfl, by decide, by decide⟩

/-- C2 fails on the code: on a no-file operation with a truthy query the
executed trace runs the Payload Serializer strictly before the Query
Rewriter, so the claimed rewriter-first order is false; and on an
operation without a query field the rewrite stage never runs at all, so
the rewrite is not unconditional. -/
theorem claim2_counterexample :
    ((runRequest exHeaders c2Body).trace
        = [PipelineEvent.extractFilesEv, PipelineEvent.serializeEv,
           PipelineEvent.rewriteEv, PipelineEvent.fetchEv]
      ∧ claimOrderC2 (runRequest exHeaders c2Body).trace = false)
    ∧ PipelineEvent.rewriteEv ∉ (runRequest exHeaders c2NoRewriteBody).trace := by
  decide

/-- C2 amended: for every operation the executed pipeline is file
extraction, then the Payload Serializer, then the Multipart Encoder
exactly when files were extracted; any Query Rewriter stage runs only
after those, at subscription time, immediately before the transport
stage, and the transport stage is last when it is reached. -/
theorem claim2_amended (headers0 : List (String × String)) (b : ParsedBody) :
    (runRequest headers0 b).trace
        = [PipelineEvent.extractFilesEv, PipelineEvent.serializeEv,
           PipelineEvent.multipartEncodeEv]
    ∨ (runRequest headers0 b).trace
        = [PipelineEvent.extractFilesEv, PipelineEvent.serializeEv]
    ∨ (runRequest headers0 b).trace
        = [PipelineEvent.extractFilesEv, PipelineEvent.serializeEv,
           PipelineEvent.fetchEv]
    ∨ (runRequest headers0 b).trace
        = [PipelineEvent.extractFilesEv, PipelineEvent.serializeEv,
           PipelineEvent.rewriteEv, PipelineEvent.fetchEv] := by
  unfold runRequest
  by_cases hf : (extractFilesFrom b).1.length != 0
  · simp only [hf, if_true]
    simp [subscribeRun, jsonParseWire]
  · simp only [hf, if_false]
    rcases subscribeRun_trace_cases (WireBody.json (extractFilesFrom b).2) with h | h | h <;>
      simp [h]

/-- C4: when the extracted-file list is non-empty, the wire body is the
multipart container built by deleting the content-type header, appending
the serialized payload under operations, appending under map the JSON
encoding that takes the stringified zero-based index of each file, in
list order, to the one-element array of its path, and appending each
binary file under its numeric index with its declared name. -/
theorem claim4_multipart (headers0 : List (String × String)) (b : ParsedBody)
    (hf : (extractFilesFrom b).1 ≠ []) :
    (runRequest headers0 b).headers = deleteHeader headers0 "content-type"
    ∧ (runRequest headers0 b).wire = WireBody.formData
        (FormDataPart.mk "operations"
            (.text (serializeFetchParameter (extractFilesFrom b).2))
          :: FormDataPart.mk "map"
            (.text ("\x7b" ++ sepJoin ","
              ((extractFilesFrom b).1.enum.map fun p =>
                jsonQuote (toString p.1) ++ ":[" ++ jsonQuote p.2.path ++ "]") ++ "\x7d"))
          :: (extractFilesFrom b).1.enum.map fun p =>
              FormDataPart.mk (toString p.1) (.fileVal p.2.file p.2.file.name)) := by
  have hlen : ((extractFilesFrom b).1.length != 0) = true := by
    simpa [bne_iff_ne, List.length_eq_zero] using hf
  constructor
  · simp [runRequest, hlen]
  · simp [runRequest, hlen, encodeMultipart, buildMapObj, mapObjJson, foldl_append_map,
      List.map_map, Function.comp_def, sepJoin]

/-- Witness for C4 at a concrete single-file operation. -/
theorem claim4_multipart_witness :
    (extractFilesFrom c4Body).1 ≠ []
    ∧ (runRequest exHeaders c4Body).headers = deleteHeader exHeaders "content-type" :=
  ⟨by decide, (claim4_multipart exHeaders c4Body (by decide)).1⟩

/-- C5: a non-abort failure whose result carries truthy data and errors
makes the catch handler emit exactly one next event holding that result
and then exactly one error event holding the failure. An abort-named
failure belongs to the cancellation class of the taxonomy and is handled
before this branch. -/
theorem claim5_partial_result (e : JSError) (r : ErrorResult)
    (hn : e.name ≠ "AbortError") (hr : e.result = some r)
    (hd : r.data.truthy = true) (he : r.errors.truthy = true) :
    catchHandler e = [ObserverEvent.nextResult r, ObserverEvent.errorEv e] := by
  simp [catchHandler, hn, hr, hd, he]

/-- Witness for C5 at a concrete partial-result failure. -/
theorem claim5_partial_result_witness :
    c5Err.name ≠ "AbortError"
    ∧ catchHandler c5Err
        = [ObserverEvent.nextResult { data := .str "d", errors := .str "e" },
           ObserverEvent.errorEv c5Err] :=
  ⟨by decide, claim5_partial_result c5Err _ (by decide) rfl (by decide) (by decide)⟩

/-- C6: an abort-named failure makes the catch handler return before any
event: no next and no error is emitted. -/
theorem claim6_abort_silent (e : JSError) (h : e.name = "AbortError") :
    catchHandler e = [] := by
  simp [catchHandler, h]

/-- Witness for C6 at a concrete abort error. -/
theorem claim6_abort_silent_witness :
    catchHandler { name := "AbortError" } = [] :=
  claim6_abort_silent { name := "AbortError" } rfl

/-- C7: on the success path the steps run in the order context mutation,
response parsing, next emission, completion; and at every step, hence in
particular when next is emitted, the operation context already holds the
response that produced it. -/
theorem claim7_context_order (ctx0 : OperationContext) (resp : Response) :
    ((runSuccessChain ctx0 resp).2.map TracedStep.event)
        = [SuccessEvent.setContextEv resp, SuccessEvent.parseEv resp,
           SuccessEvent.nextEv (parseAndCheckHttpResponse resp), SuccessEvent.completeEv]
    ∧ (∀ st ∈ (runSuccessChain ctx0 resp).2, st.ctxAtStep.response = some resp)
    ∧ (runSuccessChain ctx0 resp).1.response = some resp := by
  refine ⟨rfl, ?_, rfl⟩
  intro st hst
  simp [runSuccessChain] at hst
  rcases hst with h | h | h | h <;> simp [h]

/-- C8: every body the rewrite branch actually processes comes out with
exactly the rewritten shape: variables nulled, operationName taken from
the operation field of the input (not from its operationName field), and
no operation field of its own. -/
theorem claim8_rewritten_shape (b b2 : ParsedBody)
    (h : rewriteStep b = .ok (b2, true)) :
    b2.vars = VarsValue.null
    ∧ b2.operationName = b.operation
    ∧ b2.operation = JSValue.undefined := by
  by_cases hq : b.query.truthy
  · rcases hbq : b.query with _ | _ | n | qs | f <;> rw [hbq] at hq <;>
      rw [rewriteStep, hbq] at h <;> simp [hq] at h
    rcases hk : objectKeys b.vars with e | keys <;> rw [hk] at h <;>
      simp [Bind.bind, Except.bind] at h
    subst h
    exact ⟨rfl, rfl, rfl⟩
  · rw [rewriteStep] at h
    simp [hq] at h

/-- Witness for C8 at the concrete rewrite of claim C3. -/
theorem claim8_rewritten_shape_witness :
    rewriteStep c3Body = .ok (c3Rewritten, true)
    ∧ (c3Rewritten.vars = VarsValue.null
       ∧ c3Rewritten.operationName = c3Body.operation
       ∧ c3Rewritten.operation = JSValue.undefined) :=
  ⟨rfl, claim8_rewritten_shape c3Body c3Rewritten rfl⟩

/-- C9: whenever at least one file is extracted the wire body is a
FormData, the subscription hands it to the parse step which raises the
JSON syntax failure, and the fetch stage is never reached. -/
theorem claim9_files_parse_failure (headers0 : List (String × String)) (b : ParsedBody)
    (hf : (extractFilesFrom b).1 ≠ []) :
    (runRequest headers0 b).outcome = Outcome.threw errParseFormData
    ∧ PipelineEvent.fetchEv ∉ (runRequest headers0 b).trace := by
  have hlen : ((extractFilesFrom b).1.length != 0) = true := by
    simpa [bne_iff_ne, List.length_eq_zero] using hf
  unfold runRequest
  simp [hlen, subscribeRun, jsonParseWire]

/-- Witness for C9 at a concrete single-file operation. -/
theorem claim9_files_parse_failure_witness :
    (extractFilesFrom c4Body).1 ≠ []
    ∧ ((runRequest exHeaders c4Body).outcome = Outcome.threw errParseFormData
       ∧ PipelineEvent.fetchEv ∉ (runRequest exHeaders c4Body).trace) :=
  ⟨by decide, claim9_files_parse_failure exHeaders c4Body (by decide)⟩

/-- C10: a body whose query is a truthy string while its variables slot is
absent or null raises the TypeError of the unguarded Object.keys call at
subscription time, and the fetch stage is never reached. -/
theorem claim10_missing_variables (headers0 : List (String × String)) (b : ParsedBody)
    (qs : String) (hq : b.query = JSValue.str qs) (hne : qs ≠ "")
    (hv : b.vars = VarsValue.undefined ∨ b.vars = VarsValue.null) :
    (runRequest headers0 b).outcome = Outcome.threw errKeysOfNull
    ∧ PipelineEvent.fetchEv ∉ (runRequest headers0 b).trace := by
  have hext : extractFilesFrom b = ([], b) := by
    rcases hv with hv | hv <;> rw [extractFilesFrom, hv]
  have htr : JSValue.truthy (JSValue.str qs) = true := by
    simp [JSValue.truthy, hne]
  have hrw : rewriteStep b = .error errKeysOfNull := by
    rw [rewriteStep, hq]
    rcases hv with hv | hv <;> rw [hv] <;> simp [htr, objectKeys] <;> rfl
  unfold runRequest
  simp [hext, subscribeRun, jsonParseWire, hrw]

/-- Witness for C10 at a concrete body with a query and no variables. -/
theorem claim10_missing_variables_witness :
    (c10Body.query = JSValue.str "\x7b me \x7d"
     ∧ ("\x7b me \x7d" : String) ≠ ""
     ∧ (c10Body.vars = VarsValue.undefined ∨ c10Body.vars = VarsValue.null))
    ∧ ((runRequest exHeaders c10Body).outcome = Outcome.threw errKeysOfNull
       ∧ PipelineEvent.fetchEv ∉ (runRequest exHeaders c10Body).trace) :=
  ⟨⟨rfl, by decide, Or.inl rfl⟩,
   claim10_missing_variables exHeaders c10Body _ rfl (by decide) (Or.inl rfl)⟩

end ApolloUpload
